import Mathlib

/-!
Shallow embedding of the notebook
`src/tutorials/CorrectnessVerificationAndPerformanceComparison.ipynb`.

The notebook defines a two-line PyTorch model (`torch.mm` of its two inputs),
exports it to ONNX, converts the ONNX graph to a Caffe2 net, runs both models
on the same inputs, asserts numeric closeness of the outputs, and benchmarks
both runtimes.

Modelling choices:
* float32 tensors are modelled as exact rationals; a 2-D tensor is a list of
  rows (`List (List ℚ)`);
* external library functions (`torch.mm`, `np.testing.assert_almost_equal`,
  the ONNX checker, the onnx-caffe2 converter and helpers) are modelled from
  their documented behaviour, as recorded in doc comments below;
* wall-clock time is not modelled; the benchmark helpers are parameterised by
  the list of per-iteration durations they would observe.
-/

namespace Tutorial

abbrev Scalar := ℚ

/-- A 2-D tensor: a list of rows. -/
abbrev Tensor := List (List Scalar)

namespace Tensor

/-- Number of rows. -/
def rows (t : Tensor) : Nat := t.length

/-- Number of columns (length of the first row; 0 for an empty tensor). -/
def cols (t : Tensor) : Nat := (t.headD []).length

/-- Entry at row `i`, column `j` (0 out of bounds). -/
def entry (t : Tensor) (i j : Nat) : Scalar := (t.getD i []).getD j 0

/-- A tensor is well formed when every row has the same length `t.cols`. -/
def wellFormed (t : Tensor) : Prop := ∀ row ∈ t, row.length = t.cols

instance (t : Tensor) : Decidable t.wellFormed :=
  List.decidableBAll _ t

end Tensor

/-- Dot product of two vectors (truncating at the shorter one, as `zipWith`). -/
def dot (xs ys : List Scalar) : Scalar := (List.zipWith (· * ·) xs ys).sum

/-- Column `j` of a tensor. -/
def col (t : Tensor) (j : Nat) : List Scalar := t.map (fun r => r.getD j 0)

/-- Model of `torch.mm`: matrix product of two 2-D tensors.
Row `i` of the result holds the dot products of row `i` of `A` with the
columns of `B`. -/
def torch_mm (A B : Tensor) : Tensor :=
  A.map (fun row => (List.range B.cols).map (fun j => dot row (col B j)))

/-- The notebook's `MyModel`: a `torch.nn.Module` with no parameters
(`__init__` only calls the superclass constructor). -/
structure MyModel where
  mk ::

/-- `MyModel.forward(self, m1, m2)` returns `torch.mm(m1, m2)` — the source's
two-line forward pass. -/
def MyModel.forward (_self : MyModel) (m1 m2 : Tensor) : Tensor :=
  torch_mm m1 m2

/-- `pytorch_model = MyModel()`. -/
def pytorch_model : MyModel := ⟨⟩

/-- The mathematical matrix product, written from the spec's words
("returns the multiply of the two inputs", "matrix product"): entry `(i, j)`
is `∑ l, A i l * B l j`.  Used to state that `MyModel.forward` is exactly the
matrix product. -/
def matrixProduct (A B : Tensor) : Tensor :=
  (List.range A.rows).map (fun i =>
    (List.range B.cols).map (fun j =>
      ∑ l ∈ Finset.range B.rows, A.entry i l * B.entry l j))

/-! ### ONNX export and checking -/

/-- A node of the exported ONNX graph.  The notebook records the traced graph
as two nodes: `%2 = Constant[value={0}]()` and
`%3 = Gemm[alpha=1, beta=0, broadcast=1](%0, %1, %2)`. -/
inductive OnnxNode where
  | constant (value : Int) (output : String)
  | gemm (alpha beta : Int) (inA inB inC : String) (output : String)
deriving DecidableEq

/-- Names a node reads. -/
def OnnxNode.nodeInputs : OnnxNode → List String
  | .constant _ _ => []
  | .gemm _ _ a b c _ => [a, b, c]

/-- Names a node writes. -/
def OnnxNode.nodeOutputs : OnnxNode → List String
  | .constant _ out => [out]
  | .gemm _ _ _ _ _ out => [out]

/-- The graph of an ONNX model: input names, nodes, output names. -/
structure OnnxGraph where
  inputNames : List String
  nodes : List OnnxNode
  outputNames : List String
deriving DecidableEq

/-- An ONNX model protobuf (only the graph matters here). -/
structure OnnxModelPb where
  graph : OnnxGraph
deriving DecidableEq

/-- Model of `torch.onnx.export(pytorch_model, inputs, f)` followed by
`onnx.ModelProto.FromString(f.getvalue())`: the traced graph recorded in the
notebook output, with inputs `%0 : Float(3, 4)` and `%1 : Float(4, 5)`, a
`Constant` node producing the scalar `0` as `%2`, a
`Gemm[alpha=1, beta=0, broadcast=1](%0, %1, %2)` node producing `%3`, and
output `%3`. -/
def torch_onnx_export (_model : MyModel) : OnnxModelPb :=
  ⟨⟨["0", "1"],
    [.constant 0 "2", .gemm 1 0 "0" "1" "2" "3"],
    ["3"]⟩⟩

/-- Names defined after running a list of nodes on top of an environment. -/
def envAfter (env : List String) : List OnnxNode → List String
  | [] => env
  | n :: rest => envAfter (env ++ n.nodeOutputs) rest

/-- Single-static-assignment check over a node list: every node reads only
names already defined and writes only fresh names. -/
def checkNodes (env : List String) : List OnnxNode → Bool
  | [] => true
  | n :: rest =>
    n.nodeInputs.all (fun s => env.contains s) &&
    n.nodeOutputs.all (fun s => !env.contains s) &&
    checkNodes (env ++ n.nodeOutputs) rest

/-- Model of `onnx.checker.check_model`: the graph must be in single static
assignment form over its declared inputs and its declared outputs must be
defined.  Returns `true` exactly when the checker raises no error. -/
def onnx_checker_check_model (m : OnnxModelPb) : Bool :=
  checkNodes m.graph.inputNames m.graph.nodes &&
  m.graph.outputNames.all (fun s => (envAfter m.graph.inputNames m.graph.nodes).contains s)

/-! ### Caffe2 nets, conversion and execution -/

/-- The `caffe2_pb2.CPU` device-type constant. -/
def caffe2_CPU : Nat := 0

/-- The `caffe2_pb2.CUDA` device-type constant. -/
def caffe2_CUDA : Nat := 1

/-- A `caffe2_pb2.DeviceOption` with its device type and ordinal. -/
structure DeviceOption where
  device_type : Nat
  device_id : Nat
deriving DecidableEq

/-- The notebook's `device_opts = core.DeviceOption(caffe2_pb2.CPU, 0)`. -/
def device_opts : DeviceOption := ⟨caffe2_CPU, 0⟩

/-- An operator in a Caffe2 net: a tensor fill for a constant, or a `Gemm`. -/
inductive C2Op where
  | givenTensorFill (value : Int) (output : String)
  | gemm (alpha beta : Int) (inA inB inC : String) (output : String)
deriving DecidableEq

/-- A Caffe2 `NetDef`: its operators, external outputs, and device option. -/
structure Caffe2Net where
  ops : List C2Op
  externalOutput : List String
  device_option : DeviceOption
deriving DecidableEq

/-- Model of `Caffe2Backend.onnx_graph_to_caffe2_net(graph)`: constants become
tensor fills in the init net, compute nodes go to the predict net, the predict
net's external outputs are the graph outputs, and device options start at the
proto default `(CPU, 0)`. -/
def onnx_graph_to_caffe2_net (g : OnnxGraph) : Caffe2Net × Caffe2Net :=
  (⟨g.nodes.filterMap (fun n =>
      match n with
      | .constant v out => some (.givenTensorFill v out)
      | .gemm _ _ _ _ _ _ => none),
    [], ⟨caffe2_CPU, 0⟩⟩,
   ⟨g.nodes.filterMap (fun n =>
      match n with
      | .constant _ _ => none
      | .gemm a b x y z out => some (.gemm a b x y z out)),
    g.outputNames, ⟨caffe2_CPU, 0⟩⟩)

/-- Model of `net.device_option.CopyFrom(device_opts)`. -/
def setDeviceOption (net : Caffe2Net) (d : DeviceOption) : Caffe2Net :=
  { net with device_option := d }

/-- Elementwise scalar multiple of a tensor. -/
def scaleT (a : Scalar) (t : Tensor) : Tensor := t.map (List.map (a * ·))

/-- Elementwise sum of two tensors (truncating, as `zipWith`). -/
def addT (A B : Tensor) : Tensor := List.zipWith (List.zipWith (· + ·)) A B

/-- Broadcast of a scalar tensor to shape `(r, c)`. -/
def bcast (r c : Nat) (t : Tensor) : Tensor :=
  List.replicate r (List.replicate c (t.entry 0 0))

/-- Semantics of `Gemm` with `broadcast=1` and a scalar third input:
`alpha * (A · B) + beta * C` broadcast to the product's shape. -/
def gemmSem (alpha beta : Int) (A B C : Tensor) : Tensor :=
  addT (scaleT (alpha : Scalar) (torch_mm A B))
    (scaleT (beta : Scalar) (bcast (torch_mm A B).rows (torch_mm A B).cols C))

/-- A Caffe2 workspace: named blobs. -/
abbrev Workspace := List (String × Tensor)

/-- Run one Caffe2 operator on a workspace (`none` models a runtime error for
a missing blob). -/
def runOp (ws : Workspace) : C2Op → Option Workspace
  | .givenTensorFill v out => some ((out, [[(v : Scalar)]]) :: ws)
  | .gemm a b x y z out =>
    match ws.lookup x, ws.lookup y, ws.lookup z with
    | some A, some B, some C => some ((out, gemmSem a b A B C) :: ws)
    | _, _, _ => none

/-- Run all operators of a net in order. -/
def runNet (net : Caffe2Net) (ws : Workspace) : Option Workspace :=
  net.ops.foldlM runOp ws

/-- Model of `name_inputs(onnx_model, caffe2_inputs)`: pair the graph's input
names with the arrays. -/
def name_inputs (m : OnnxModelPb) (xs : List Tensor) : Workspace :=
  List.zip m.graph.inputNames xs

/-- Model of `c2_native_run_net(init_net, predict_net, inputs)`: feed the
named inputs into a fresh workspace, run the init net, run the predict net,
and fetch the predict net's external outputs. -/
def c2_native_run_net (init predict : Caffe2Net) (inputs : Workspace) :
    Option (Workspace × List Tensor) := do
  let ws1 ← runNet init inputs
  let ws2 ← runNet predict ws1
  let outs ← predict.externalOutput.mapM (fun s => ws2.lookup s)
  return (ws2, outs)

/-- Model of `var.data.numpy()`: the array values, unchanged. -/
def var_data_numpy (t : Tensor) : Tensor := t

/-! ### Saving and loading nets (protobuf serialisation) -/

/-- Serialised protobuf file contents. -/
abbrev PbFile := List Nat

/-- Encode an integer as sign and magnitude. -/
def encodeInt (i : Int) : List Nat :=
  [if i < 0 then 1 else 0, i.natAbs]

/-- Decode an integer; returns the remaining input. -/
def decodeInt : List Nat → Option (Int × List Nat)
  | s :: n :: rest => some (if s = 1 then -(n : Int) else (n : Int), rest)
  | _ => none

/-- Encode a string as its length followed by its character codes. -/
def encodeStr (s : String) : List Nat :=
  s.data.length :: s.data.map Char.toNat

/-- Decode a string; returns the remaining input. -/
def decodeStr : List Nat → Option (String × List Nat)
  | [] => none
  | n :: rest =>
    let cs := rest.take n
    if cs.length = n then some (⟨cs.map Char.ofNat⟩, rest.drop n) else none

/-- Encode one Caffe2 operator. -/
def encodeOp : C2Op → List Nat
  | .givenTensorFill v out => 0 :: (encodeInt v ++ encodeStr out)
  | .gemm a b x y z out =>
    1 :: (encodeInt a ++ encodeInt b ++ encodeStr x ++ encodeStr y ++
      encodeStr z ++ encodeStr out)

/-- Decode one Caffe2 operator; returns the remaining input. -/
def decodeOp : List Nat → Option (C2Op × List Nat)
  | 0 :: rest => do
    let (v, r1) ← decodeInt rest
    let (out, r2) ← decodeStr r1
    return (.givenTensorFill v out, r2)
  | 1 :: rest => do
    let (a, r1) ← decodeInt rest
    let (b, r2) ← decodeInt r1
    let (x, r3) ← decodeStr r2
    let (y, r4) ← decodeStr r3
    let (z, r5) ← decodeStr r4
    let (out, r6) ← decodeStr r5
    return (.gemm a b x y z out, r6)
  | _ => none

/-- Encode a list as its length followed by the encoded elements. -/
def encodeList (enc : α → List Nat) (xs : List α) : List Nat :=
  xs.length :: (xs.map enc).flatten

/-- Decode `n` elements; returns the remaining input. -/
def decodeCount (dec : List Nat → Option (α × List Nat)) :
    Nat → List Nat → Option (List α × List Nat)
  | 0, l => some ([], l)
  | n + 1, l => do
    let (a, r1) ← dec l
    let (as, r2) ← decodeCount dec n r1
    return (a :: as, r2)

/-- Decode a length-prefixed list; returns the remaining input. -/
def decodeList (dec : List Nat → Option (α × List Nat)) :
    List Nat → Option (List α × List Nat)
  | [] => none
  | n :: rest => decodeCount dec n rest

/-- Encode a whole Caffe2 net: operators, external outputs, device option. -/
def encodeNet (net : Caffe2Net) : List Nat :=
  encodeList encodeOp net.ops ++ encodeList encodeStr net.externalOutput ++
    [net.device_option.device_type, net.device_option.device_id]

/-- Decode a whole Caffe2 net; returns the remaining input. -/
def decodeNet (l : List Nat) : Option (Caffe2Net × List Nat) := do
  let (ops, r1) ← decodeList decodeOp l
  let (eo, r2) ← decodeList decodeStr r1
  match r2 with
  | dt :: di :: r3 => return (⟨ops, eo, ⟨dt, di⟩⟩, r3)
  | _ => none

/-- Model of `save_caffe2_net(net, file)`: the serialised file contents. -/
def save_caffe2_net (net : Caffe2Net) : PbFile := encodeNet net

/-- Model of `load_caffe2_net(file)`: parse the whole file back into a net
(`none` models a protobuf parse error). -/
def load_caffe2_net (f : PbFile) : Option Caffe2Net :=
  match decodeNet f with
  | some (net, []) => some net
  | _ => none

/-! ### Verification and benchmarking -/

/-- The notebook's `expected_decimal = 5`. -/
def expected_decimal : Nat := 5

/-- Model of `np.testing.assert_almost_equal(actual, desired, decimal)` on 2-D
arrays, per numpy's documented behaviour: the assertion passes exactly when
the shapes agree and every element satisfies
`abs(desired - actual) < 1.5 * 10 ** (-decimal)`.  Returns `true` when no
`AssertionError` is raised. -/
def assert_almost_equal (actual desired : Tensor) (decimal : Nat) : Bool :=
  (actual.rows == desired.rows) && (actual.cols == desired.cols) &&
  (List.range actual.rows).all (fun i =>
    (List.range actual.cols).all (fun j =>
      decide (|actual.entry i j - desired.entry i j| <
        3 / 2 * (1 / 10 : Scalar) ^ decimal)))

/-- Outcome of the notebook's verification loop: whether every assertion
passed, whether the CUDA branch (`p.cpu()`) executed, and how many
assertions executed. -/
structure VerifyResult where
  passed : Bool
  cudaBranchTaken : Bool
  assertsRun : Nat
deriving DecidableEq

/-- The pair list the loop iterates over:
`zip([pytorch_results], caffe2_results)`. -/
def verification_pairs (pytorch_results : Tensor)
    (caffe2_results : List Tensor) : List (Tensor × Tensor) :=
  List.zip [pytorch_results] caffe2_results

/-- The notebook's verification loop:
`for p, c in zip([pytorch_results], caffe2_results):` executes the guard
`if device_opts.device_type == caffe2_pb2.CUDA: p.cpu()` and one
`np.testing.assert_almost_equal(p.data.cpu().numpy(), c, decimal=expected_decimal)`
per pair (`p.data.cpu().numpy()` leaves the values unchanged on CPU). -/
def verify_outputs (dev : DeviceOption) (pytorch_results : Tensor)
    (caffe2_results : List Tensor) : VerifyResult :=
  (verification_pairs pytorch_results caffe2_results).foldl
    (fun acc pc =>
      { passed := acc.passed &&
          assert_almost_equal (var_data_numpy pc.1) pc.2 expected_decimal
        cudaBranchTaken := acc.cudaBranchTaken ||
          (dev.device_type == caffe2_CUDA)
        assertsRun := acc.assertsRun + 1 })
    ⟨true, false, 0⟩

/-- Modelled from the spec: `benchmark_pytorch_model` (from
`onnx_caffe2.helper`, whose body is not in `src/`) times `N` repeated
invocations of the PyTorch model and reports the mean wall-clock time per
iteration as the first element of its result.  Wall-clock time itself is
outside the embedding, so the per-iteration durations are a parameter; the
function returns the `N` invocation results together with the reported
times. -/
def benchmark_pytorch_model (model : MyModel) (m1 m2 : Tensor)
    (durations : List Scalar) : List Tensor × List Scalar :=
  (durations.map (fun _ => model.forward m1 m2),
   [durations.sum / (durations.length : Scalar)])

/-- Modelled from the spec: `benchmark_caffe2_model` (from
`onnx_caffe2.helper`, whose body is not in `src/`) runs the init net once,
times `N` repeated invocations of the predict net, and reports the mean
wall-clock time per iteration as the first element of its result. -/
def benchmark_caffe2_model (init predict : Caffe2Net) (ws : Workspace)
    (durations : List Scalar) : List (Option Workspace) × List Scalar :=
  (durations.map (fun _ => (runNet init ws).bind (runNet predict)),
   [durations.sum / (durations.length : Scalar)])

/-! ### The notebook, cell by cell -/

/-- The notebook's stages, in the order its cells execute. -/
inductive Step where
  | defineModel
  | prepareInputs
  | exportModel
  | checkModel
  | convertModel
  | setDevice
  | saveNets
  | loadNets
  | runPyTorch
  | runCaffe2
  | verifyStep
  | benchmarkStep
deriving DecidableEq

/-- Everything the notebook computes, with the execution trace. -/
structure NotebookRun where
  trace : List Step
  onnx_model : OnnxModelPb
  check_ok : Bool
  init_net0 : Caffe2Net
  predict_net0 : Caffe2Net
  init_net : Caffe2Net
  predict_net : Caffe2Net
  caffe2_inputs : List Tensor
  pytorch_results : Tensor
  caffe2_results : Option (Workspace × List Tensor)
  verify : Option VerifyResult
  pytorch_times : List Scalar
  caffe2_times : List Scalar

/-- The whole notebook, cell by cell: define the model (cell 1), export it to
ONNX and check it (cell 3), convert to Caffe2 nets and set the CPU device
option (cell 5), prepare the Caffe2 inputs (cell 7), save and reload the nets
(cell 9), run both models (cell 11), verify closeness (cell 13), and
benchmark both (cell 15).  `inputs` stands for the two random tensors of
shapes `(3, 4)` and `(4, 5)`; the benchmark duration lists stand for the
wall-clock samples. -/
def run_notebook (inputs : Tensor × Tensor)
    (pt_durations c2_durations : List Scalar) : NotebookRun :=
  let model := pytorch_model
  let onnx_model := torch_onnx_export model
  let check_ok := onnx_checker_check_model onnx_model
  let nets := onnx_graph_to_caffe2_net onnx_model.graph
  let init_net1 := setDeviceOption nets.1 device_opts
  let predict_net1 := setDeviceOption nets.2 device_opts
  let init_net := (load_caffe2_net (save_caffe2_net init_net1)).getD init_net1
  let predict_net := (load_caffe2_net (save_caffe2_net predict_net1)).getD predict_net1
  let caffe2_inputs := [inputs.1, inputs.2].map var_data_numpy
  let pytorch_results := model.forward inputs.1 inputs.2
  let caffe2_run :=
    c2_native_run_net init_net predict_net (name_inputs onnx_model caffe2_inputs)
  let verify :=
    caffe2_run.map (fun r => verify_outputs device_opts pytorch_results r.2)
  let pt_bench := benchmark_pytorch_model model inputs.1 inputs.2 pt_durations
  let c2_bench := benchmark_caffe2_model init_net predict_net [] c2_durations
  { trace := [.defineModel, .prepareInputs, .exportModel, .checkModel,
      .convertModel, .setDevice, .saveNets, .loadNets, .runPyTorch,
      .runCaffe2, .verifyStep, .benchmarkStep]
    onnx_model := onnx_model
    check_ok := check_ok
    init_net0 := nets.1
    predict_net0 := nets.2
    init_net := init_net
    predict_net := predict_net
    caffe2_inputs := caffe2_inputs
    pytorch_results := pytorch_results
    caffe2_results := caffe2_run
    verify := verify
    pytorch_times := pt_bench.2
    caffe2_times := c2_bench.2 }

end Tutorial

namespace Tutorial

theorem decodeInt_encodeInt (i : Int) (r : List Nat) :
    decodeInt (encodeInt i ++ r) = some (i, r) := by
  by_cases h : i < 0
  · have hv : -((i.natAbs : Int)) = i := by omega
    simp only [encodeInt, if_pos h, List.cons_append, decodeInt,
      if_pos (rfl : (1 : Nat) = 1), hv]
    simp
  · have hv : ((i.natAbs : Int)) = i := by omega
    have h0 : ¬((0 : Nat) = 1) := by decide
    simp only [encodeInt, if_neg h, List.cons_append, decodeInt, if_neg h0, hv]
    simp

theorem decodeStr_encodeStr (s : String) (r : List Nat) :
    decodeStr (encodeStr s ++ r) = some (s, r) := by
  cases s with
  | mk data =>
    have htake : (data.map Char.toNat ++ r).take (data.map Char.toNat).length
        = data.map Char.toNat := List.take_left _ _
    have hdrop : (data.map Char.toNat ++ r).drop (data.map Char.toNat).length
        = r := List.drop_left _ _
    simp only [encodeStr, List.cons_append, decodeStr]
    rw [show data.length = (data.map Char.toNat).length by simp]
    rw [htake, hdrop]
    simp [List.map_map, Function.comp_def, Char.ofNat_toNat]

theorem decodeCount_encode {α : Type} (enc : α → List Nat)
    (dec : List Nat → Option (α × List Nat))
    (h : ∀ a r, dec (enc a ++ r) = some (a, r)) :
    ∀ (xs : List α) (r : List Nat),
      decodeCount dec xs.length ((xs.map enc).flatten ++ r) = some (xs, r) := by
  intro xs
  induction xs with
  | nil => intro r; simp [decodeCount]
  | cons x xs ih =>
    intro r
    simp [decodeCount, List.append_assoc, h, ih]

theorem decodeList_encodeList {α : Type} (enc : α → List Nat)
    (dec : List Nat → Option (α × List Nat))
    (h : ∀ a r, dec (enc a ++ r) = some (a, r))
    (xs : List α) (r : List Nat) :
    decodeList dec (encodeList enc xs ++ r) = some (xs, r) := by
  simp only [encodeList, List.cons_append, decodeList]
  exact decodeCount_encode enc dec h xs r

theorem decodeOp_encodeOp (op : C2Op) (r : List Nat) :
    decodeOp (encodeOp op ++ r) = some (op, r) := by
  cases op <;>
    simp [encodeOp, decodeOp, List.append_assoc, decodeInt_encodeInt,
      decodeStr_encodeStr]

theorem decodeNet_encodeNet (net : Caffe2Net) (r : List Nat) :
    decodeNet (encodeNet net ++ r) = some (net, r) := by
  cases net with
  | mk ops eo dev =>
    cases dev with
    | mk dt di =>
      simp [decodeNet, encodeNet, List.append_assoc,
        decodeList_encodeList encodeOp decodeOp decodeOp_encodeOp,
        decodeList_encodeList encodeStr decodeStr decodeStr_encodeStr]

theorem load_save_caffe2_net (net : Caffe2Net) :
    load_caffe2_net (save_caffe2_net net) = some net := by
  have h := decodeNet_encodeNet net []
  rw [List.append_nil] at h
  simp [load_caffe2_net, save_caffe2_net, h]

theorem dot_eq_sum (xs : List Scalar) :
    ∀ ys : List Scalar, xs.length = ys.length →
      dot xs ys = ∑ l ∈ Finset.range xs.length, xs.getD l 0 * ys.getD l 0 := by
  induction xs with
  | nil => intro ys _; simp [dot]
  | cons x xs ih =>
    intro ys hlen
    cases ys with
    | nil => simp at hlen
    | cons y ys =>
      have hxy : xs.length = ys.length := by simpa using hlen
      have hdot : dot (x :: xs) (y :: ys) = x * y + dot xs ys := by
        simp [dot, List.zipWith]
      rw [hdot, ih ys hxy]
      rw [List.length_cons, Finset.sum_range_succ']
      simp [add_comm]

theorem col_length (B : Tensor) (j : Nat) : (col B j).length = B.length := by
  simp [col]

theorem row_getD (A : Tensor) (i : Nat) (hi : i < A.length) :
    A.getD i [] = A[i] := by
  rw [List.getD_eq_getElem?_getD, List.getElem?_eq_getElem hi]
  rfl

theorem col_getD (B : Tensor) (j l : Nat) (hl : l < B.length) :
    (col B j).getD l 0 = B.entry l j := by
  unfold col Tensor.entry
  rw [List.getD_eq_getElem?_getD, List.getElem?_map, List.getElem?_eq_getElem hl,
    row_getD B l hl]
  rfl

theorem torch_mm_rows (A B : Tensor) : (torch_mm A B).rows = A.rows := by
  simp [torch_mm, Tensor.rows]

theorem torch_mm_cols (A B : Tensor) (h : A ≠ []) :
    (torch_mm A B).cols = B.cols := by
  cases A with
  | nil => exact absurd rfl h
  | cons a as => simp [torch_mm, Tensor.cols]

theorem torch_mm_wellFormed (A B : Tensor) (h : A ≠ []) :
    (torch_mm A B).wellFormed := by
  intro row hrow
  simp only [torch_mm, List.mem_map] at hrow
  obtain ⟨r, _, rfl⟩ := hrow
  simp [torch_mm_cols A B h]

theorem scaleT_one (t : Tensor) : scaleT 1 t = t := by
  simp [scaleT]

theorem scaleT_zero_bcast (r c : Nat) (C : Tensor) :
    scaleT 0 (bcast r c C) = List.replicate r (List.replicate c 0) := by
  simp [scaleT, bcast]

theorem zipWith_add_replicate_zero (xs : List Scalar) (c : Nat)
    (h : xs.length = c) :
    List.zipWith (· + ·) xs (List.replicate c 0) = xs := by
  induction xs generalizing c with
  | nil => simp
  | cons x xs ih =>
    cases c with
    | zero => simp at h
    | succ c =>
      simp only [List.replicate_succ, List.zipWith_cons_cons, add_zero]
      rw [ih c (by simpa using h)]

theorem addT_replicate_zero (t : Tensor) (h : t.wellFormed) :
    addT t (List.replicate t.rows (List.replicate t.cols 0)) = t := by
  suffices hgen : ∀ (s : List (List Scalar)) (c : Nat), (∀ row ∈ s, row.length = c) →
      List.zipWith (List.zipWith (· + ·)) s (List.replicate s.length (List.replicate c 0)) = s by
    exact hgen t t.cols h
  intro s c hc
  induction s with
  | nil => simp
  | cons row s ih =>
    simp only [List.length_cons, List.replicate_succ, List.zipWith_cons_cons]
    rw [zipWith_add_replicate_zero row c (hc row (by simp)),
      ih (fun r hr => hc r (by simp [hr]))]

theorem gemmSem_one_zero (A B C : Tensor) (h : A ≠ []) :
    gemmSem 1 0 A B C = torch_mm A B := by
  unfold gemmSem
  rw [show ((1 : Int) : Scalar) = 1 by norm_num,
    show ((0 : Int) : Scalar) = 0 by norm_num,
    scaleT_one, scaleT_zero_bcast,
    addT_replicate_zero (torch_mm A B) (torch_mm_wellFormed A B h)]

theorem run_notebook_caffe2_results (inputs : Tensor × Tensor)
    (pt c2 : List Scalar) :
    (run_notebook inputs pt c2).caffe2_results =
      some ([("3", gemmSem 1 0 inputs.1 inputs.2 [[0]]),
             ("2", [[0]]), ("0", inputs.1), ("1", inputs.2)],
            [gemmSem 1 0 inputs.1 inputs.2 [[0]]]) := rfl

theorem run_notebook_verify_eq (inputs : Tensor × Tensor)
    (pt c2 : List Scalar) :
    (run_notebook inputs pt c2).verify =
      some (verify_outputs device_opts (torch_mm inputs.1 inputs.2)
        [gemmSem 1 0 inputs.1 inputs.2 [[0]]]) := rfl

theorem verify_outputs_branch_false (p : Tensor) (cs : List Tensor) :
    (verify_outputs device_opts p cs).cudaBranchTaken = false := by
  cases cs <;> rfl

/-- C2: for well-formed tensors of compatible shapes, `MyModel.forward`
returns exactly the matrix product of its two inputs. -/
theorem myModel_forward_is_matrix_product (m : MyModel) (m1 m2 : Tensor)
    (h1 : m1.wellFormed) (_h2 : m2.wellFormed) (hk : m1.cols = m2.rows) :
    m.forward m1 m2 = matrixProduct m1 m2 ∧ m.forward m1 m2 = torch_mm m1 m2 := by
  refine ⟨?_, rfl⟩
  show torch_mm m1 m2 = matrixProduct m1 m2
  apply List.ext_getElem
  · simp [torch_mm, matrixProduct, Tensor.rows]
  · intro i hi hi'
    have hiA : i < m1.length := by simpa [torch_mm] using hi
    simp only [torch_mm, matrixProduct, List.getElem_map, List.getElem_range]
    apply List.ext_getElem
    · simp
    · intro j hj hj'
      simp only [List.getElem_map, List.getElem_range]
      have hrow : m1[i].length = (col m2 j).length := by
        rw [col_length]
        have := h1 m1[i] (List.getElem_mem hiA)
        rw [this, hk]
        rfl
      rw [dot_eq_sum m1[i] (col m2 j) hrow]
      have hlen : m1[i].length = m2.rows := by
        have := h1 m1[i] (List.getElem_mem hiA)
        rw [this, hk]
      rw [hlen]
      apply Finset.sum_congr rfl
      intro l hl
      have hlB : l < m2.length := by
        have := Finset.mem_range.mp hl
        exact this
      rw [col_getD m2 j l hlB]
      have hAe : m1.entry i l = m1[i].getD l 0 := by
        unfold Tensor.entry
        rw [row_getD m1 i hiA]
      rw [hAe]

/-- C2 witness: the theorem at two concrete 2×2 tensors. -/
theorem myModel_forward_is_matrix_product_witness :
    Tensor.wellFormed [[(1 : Scalar), 2], [3, 4]] ∧
    Tensor.wellFormed [[(5 : Scalar), 6], [7, 8]] ∧
    Tensor.cols [[(1 : Scalar), 2], [3, 4]] = Tensor.rows [[(5 : Scalar), 6], [7, 8]] ∧
    (MyModel.forward pytorch_model [[(1 : Scalar), 2], [3, 4]] [[(5 : Scalar), 6], [7, 8]] =
        matrixProduct [[(1 : Scalar), 2], [3, 4]] [[(5 : Scalar), 6], [7, 8]] ∧
      MyModel.forward pytorch_model [[(1 : Scalar), 2], [3, 4]] [[(5 : Scalar), 6], [7, 8]] =
        torch_mm [[(1 : Scalar), 2], [3, 4]] [[(5 : Scalar), 6], [7, 8]]) :=
  ⟨by decide, by decide, by decide,
    myModel_forward_is_matrix_product pytorch_model
      [[(1 : Scalar), 2], [3, 4]] [[(5 : Scalar), 6], [7, 8]]
      (by decide) (by decide) (by decide)⟩

theorem assert_almost_equal_iff (p c : Tensor) (d : Nat) :
    assert_almost_equal p c d = true ↔
      (p.rows = c.rows ∧ p.cols = c.cols ∧
        ∀ i < p.rows, ∀ j < p.cols,
          |p.entry i j - c.entry i j| < 3 / 2 * (1 / 10 : Scalar) ^ d) := by
  simp [assert_almost_equal, Bool.and_eq_true, beq_iff_eq, List.all_eq_true,
    List.mem_range, decide_eq_true_eq, and_assoc]

/-- C1 counterexample: with an elementwise difference of `1.2e-5`, the
assertion `np.testing.assert_almost_equal(p, c, decimal=5)` passes even
though `|O_A - O_B| < 10^-5` is violated, so the assertion does not fail
exactly when some element violates the `10^-5` bound. -/
theorem assert_closeness_counterexample :
    assert_almost_equal [[0]] [[3 / 250000]] expected_decimal = true ∧
    ¬(|Tensor.entry [[(0 : Scalar)]] 0 0 - Tensor.entry [[(3 / 250000 : Scalar)]] 0 0| <
      (1 / 10 : Scalar) ^ expected_decimal) := by
  have hent : Tensor.entry [[(3 / 250000 : Scalar)]] 0 0 = 3 / 250000 := rfl
  have hent0 : Tensor.entry [[(0 : Scalar)]] 0 0 = 0 := rfl
  have habs : |(0 : Scalar) - 3 / 250000| = 3 / 250000 := by
    rw [zero_sub, abs_neg, abs_of_nonneg (by norm_num : (0 : Scalar) ≤ 3 / 250000)]
  constructor
  · rw [assert_almost_equal_iff]
    refine ⟨rfl, rfl, ?_⟩
    intro i hi j hj
    have hi0 : i = 0 := Nat.lt_one_iff.mp hi
    have hj0 : j = 0 := Nat.lt_one_iff.mp hj
    subst hi0
    subst hj0
    rw [hent, hent0, habs]
    show (3 / 250000 : Scalar) < 3 / 2 * (1 / 10) ^ 5
    norm_num
  · rw [hent, hent0, habs]
    show ¬((3 / 250000 : Scalar) < (1 / 10) ^ 5)
    norm_num

/-- C1 (amended): the verification step's assertion
`np.testing.assert_almost_equal(p, c, decimal=expected_decimal)` with
`expected_decimal = 5` succeeds exactly when the two outputs have the same
shape and every element satisfies `|O_A - O_B| < 1.5 * 10^-5` (numpy's
documented tolerance at `decimal = 5`), and it fails exactly when some
element violates that bound. -/
theorem assert_closeness_amended (p c : Tensor) :
    assert_almost_equal p c expected_decimal = true ↔
      (p.rows = c.rows ∧ p.cols = c.cols ∧
        ∀ i < p.rows, ∀ j < p.cols,
          |p.entry i j - c.entry i j| <
            3 / 2 * (1 / 10 : Scalar) ^ expected_decimal) :=
  assert_almost_equal_iff p c expected_decimal

/-- C3: the notebook executes define → export → convert → run both → assert
closeness → benchmark, in that order, each stage consuming the previous
stage's output. -/
theorem notebook_step_order (inputs : Tensor × Tensor) (pt c2 : List Scalar) :
    ([Step.defineModel, Step.exportModel, Step.convertModel, Step.runPyTorch,
        Step.runCaffe2, Step.verifyStep, Step.benchmarkStep].Sublist
      (run_notebook inputs pt c2).trace) ∧
    (run_notebook inputs pt c2).onnx_model = torch_onnx_export pytorch_model ∧
    ((run_notebook inputs pt c2).init_net0,
        (run_notebook inputs pt c2).predict_net0) =
      onnx_graph_to_caffe2_net (run_notebook inputs pt c2).onnx_model.graph ∧
    (run_notebook inputs pt c2).caffe2_results =
      c2_native_run_net (run_notebook inputs pt c2).init_net
        (run_notebook inputs pt c2).predict_net
        (name_inputs (run_notebook inputs pt c2).onnx_model
          (run_notebook inputs pt c2).caffe2_inputs) ∧
    (run_notebook inputs pt c2).verify =
      (run_notebook inputs pt c2).caffe2_results.map
        (fun r => verify_outputs device_opts
          (run_notebook inputs pt c2).pytorch_results r.2) ∧
    (run_notebook inputs pt c2).pytorch_times =
      (benchmark_pytorch_model pytorch_model inputs.1 inputs.2 pt).2 ∧
    (run_notebook inputs pt c2).caffe2_times =
      (benchmark_caffe2_model (run_notebook inputs pt c2).init_net
        (run_notebook inputs pt c2).predict_net [] c2).2 := by
  refine ⟨?_, rfl, rfl, rfl, rfl, rfl, rfl⟩
  show [Step.defineModel, Step.exportModel, Step.convertModel, Step.runPyTorch,
      Step.runCaffe2, Step.verifyStep, Step.benchmarkStep].Sublist
    [Step.defineModel, Step.prepareInputs, Step.exportModel, Step.checkModel,
      Step.convertModel, Step.setDevice, Step.saveNets, Step.loadNets,
      Step.runPyTorch, Step.runCaffe2, Step.verifyStep, Step.benchmarkStep]
  decide

/-- C4: both models run on identical inputs: the Caffe2 arrays equal the
tensors given to PyTorch, elementwise and unmodified. -/
theorem models_run_on_identical_inputs (inputs : Tensor × Tensor)
    (pt c2 : List Scalar) :
    (run_notebook inputs pt c2).caffe2_inputs = [inputs.1, inputs.2] ∧
    (run_notebook inputs pt c2).pytorch_results =
      pytorch_model.forward inputs.1 inputs.2 ∧
    (run_notebook inputs pt c2).caffe2_results =
      c2_native_run_net (run_notebook inputs pt c2).init_net
        (run_notebook inputs pt c2).predict_net
        [("0", inputs.1), ("1", inputs.2)] :=
  ⟨rfl, rfl, rfl⟩

/-- C5: the ONNX checker accepts the exported model, and the check runs
before the conversion step. -/
theorem onnx_check_passes (inputs : Tensor × Tensor) (pt c2 : List Scalar) :
    (run_notebook inputs pt c2).check_ok = true ∧
    onnx_checker_check_model (torch_onnx_export pytorch_model) = true ∧
    [Step.checkModel, Step.convertModel].Sublist
      (run_notebook inputs pt c2).trace := by
  refine ⟨rfl, rfl, ?_⟩
  show [Step.checkModel, Step.convertModel].Sublist
    [Step.defineModel, Step.prepareInputs, Step.exportModel, Step.checkModel,
      Step.convertModel, Step.setDevice, Step.saveNets, Step.loadNets,
      Step.runPyTorch, Step.runCaffe2, Step.verifyStep, Step.benchmarkStep]
  decide

/-- C6: each benchmark helper runs N invocations of its model and reports as
its first element the mean duration per iteration. -/
theorem benchmark_reports_mean_latency (init predict : Caffe2Net)
    (ws : Workspace) (m1 m2 : Tensor) (pt c2 : List Scalar)
    (h1 : pt ≠ []) (h2 : c2 ≠ []) :
    (benchmark_pytorch_model pytorch_model m1 m2 pt).1.length = pt.length ∧
    (benchmark_caffe2_model init predict ws c2).1.length = c2.length ∧
    (benchmark_pytorch_model pytorch_model m1 m2 pt).2.headD 0 =
      pt.sum / (pt.length : Scalar) ∧
    (benchmark_caffe2_model init predict ws c2).2.headD 0 =
      c2.sum / (c2.length : Scalar) ∧
    (pt.length : Scalar) *
      (benchmark_pytorch_model pytorch_model m1 m2 pt).2.headD 0 = pt.sum ∧
    (c2.length : Scalar) *
      (benchmark_caffe2_model init predict ws c2).2.headD 0 = c2.sum := by
  have hp : ((pt.length : Scalar)) ≠ 0 :=
    Nat.cast_ne_zero.mpr (Nat.pos_iff_ne_zero.mp (List.length_pos.mpr h1))
  have hc : ((c2.length : Scalar)) ≠ 0 :=
    Nat.cast_ne_zero.mpr (Nat.pos_iff_ne_zero.mp (List.length_pos.mpr h2))
  refine ⟨by simp [benchmark_pytorch_model], by simp [benchmark_caffe2_model],
    rfl, rfl, ?_, ?_⟩
  · show (pt.length : Scalar) * (pt.sum / (pt.length : Scalar)) = pt.sum
    rw [mul_comm]
    exact div_mul_cancel₀ _ hp
  · show (c2.length : Scalar) * (c2.sum / (c2.length : Scalar)) = c2.sum
    rw [mul_comm]
    exact div_mul_cancel₀ _ hc

/-- C6 witness: the theorem at concrete duration lists. -/
theorem benchmark_reports_mean_latency_witness :
    ([1, 2, 3] : List Scalar) ≠ [] ∧ ([4, 6] : List Scalar) ≠ [] ∧
    ((benchmark_pytorch_model pytorch_model [[1]] [[1]] [1, 2, 3]).1.length =
        ([1, 2, 3] : List Scalar).length ∧
      (benchmark_caffe2_model ⟨[], [], ⟨0, 0⟩⟩ ⟨[], [], ⟨0, 0⟩⟩ [] [4, 6]).1.length =
        ([4, 6] : List Scalar).length ∧
      (benchmark_pytorch_model pytorch_model [[1]] [[1]] [1, 2, 3]).2.headD 0 =
        ([1, 2, 3] : List Scalar).sum / (([1, 2, 3] : List Scalar).length : Scalar) ∧
      (benchmark_caffe2_model ⟨[], [], ⟨0, 0⟩⟩ ⟨[], [], ⟨0, 0⟩⟩ [] [4, 6]).2.headD 0 =
        ([4, 6] : List Scalar).sum / (([4, 6] : List Scalar).length : Scalar) ∧
      (([1, 2, 3] : List Scalar).length : Scalar) *
        (benchmark_pytorch_model pytorch_model [[1]] [[1]] [1, 2, 3]).2.headD 0 =
        ([1, 2, 3] : List Scalar).sum ∧
      (([4, 6] : List Scalar).length : Scalar) *
        (benchmark_caffe2_model ⟨[], [], ⟨0, 0⟩⟩ ⟨[], [], ⟨0, 0⟩⟩ [] [4, 6]).2.headD 0 =
        ([4, 6] : List Scalar).sum) :=
  ⟨by decide, by decide,
    benchmark_reports_mean_latency ⟨[], [], ⟨0, 0⟩⟩ ⟨[], [], ⟨0, 0⟩⟩ []
      [[1]] [[1]] [1, 2, 3] [4, 6] (by decide) (by decide)⟩

/-- C7: the verification contains exactly one assertion: for nonempty
`caffe2_results`, `zip([pytorch_results], caffe2_results)` is exactly the
one pair of the PyTorch result with the first Caffe2 output, and exactly one
assertion executes. -/
theorem exactly_one_assertion (p : Tensor) (cs : List Tensor) (h : cs ≠ []) :
    verification_pairs p cs = [(p, cs.headD [])] ∧
    (verification_pairs p cs).length = 1 ∧
    (verify_outputs device_opts p cs).assertsRun = 1 := by
  cases cs with
  | nil => exact absurd rfl h
  | cons c cs => exact ⟨rfl, rfl, rfl⟩

/-- C7 witness: the theorem at a concrete output list. -/
theorem exactly_one_assertion_witness :
    ([[[(0 : Scalar)]], [[(7 : Scalar)]]] : List Tensor) ≠ [] ∧
    (verification_pairs [[(0 : Scalar)]] [[[(0 : Scalar)]], [[(7 : Scalar)]]] =
        [([[(0 : Scalar)]], ([[[(0 : Scalar)]], [[(7 : Scalar)]]] : List Tensor).headD [])] ∧
      (verification_pairs [[(0 : Scalar)]] [[[(0 : Scalar)]], [[(7 : Scalar)]]]).length = 1 ∧
      (verify_outputs device_opts [[(0 : Scalar)]]
        [[[(0 : Scalar)]], [[(7 : Scalar)]]]).assertsRun = 1) :=
  ⟨by decide,
    exactly_one_assertion [[(0 : Scalar)]] [[[(0 : Scalar)]], [[(7 : Scalar)]]] (by decide)⟩

/-- C8: saving then loading a Caffe2 net is a round trip, so the nets that
are executed and benchmarked equal the converted nets with the CPU device
option set. -/
theorem save_load_round_trip (net : Caffe2Net) (inputs : Tensor × Tensor)
    (pt c2 : List Scalar) :
    load_caffe2_net (save_caffe2_net net) = some net ∧
    (run_notebook inputs pt c2).init_net =
      setDeviceOption (run_notebook inputs pt c2).init_net0 device_opts ∧
    (run_notebook inputs pt c2).predict_net =
      setDeviceOption (run_notebook inputs pt c2).predict_net0 device_opts ∧
    (run_notebook inputs pt c2).init_net.device_option = device_opts ∧
    (run_notebook inputs pt c2).predict_net.device_option = device_opts :=
  ⟨load_save_caffe2_net net, rfl, rfl, rfl, rfl⟩

/-- C9: the CUDA branch of the verification loop is unreachable: the device
option is fixed to CPU and never changes, so in every run of the loop — and
in every execution of the notebook — the guard is false. -/
theorem cuda_branch_unreachable (p : Tensor) (cs : List Tensor)
    (inputs : Tensor × Tensor) (pt c2 : List Scalar) (v : VerifyResult)
    (hv : (run_notebook inputs pt c2).verify = some v) :
    device_opts.device_type ≠ caffe2_CUDA ∧
    (verify_outputs device_opts p cs).cudaBranchTaken = false ∧
    v.cudaBranchTaken = false := by
  refine ⟨by decide, verify_outputs_branch_false p cs, ?_⟩
  rw [run_notebook_verify_eq] at hv
  cases hv
  exact verify_outputs_branch_false _ _

/-- C9 witness: the theorem at a concrete notebook run. -/
theorem cuda_branch_unreachable_witness :
    (run_notebook ([[(1 : Scalar)]], [[(1 : Scalar)]]) [] []).verify =
      some (verify_outputs device_opts (torch_mm [[(1 : Scalar)]] [[(1 : Scalar)]])
        [gemmSem 1 0 [[(1 : Scalar)]] [[(1 : Scalar)]] [[0]]]) ∧
    (device_opts.device_type ≠ caffe2_CUDA ∧
      (verify_outputs device_opts [[(2 : Scalar)]]
        [[[(2 : Scalar)]]]).cudaBranchTaken = false ∧
      (verify_outputs device_opts (torch_mm [[(1 : Scalar)]] [[(1 : Scalar)]])
        [gemmSem 1 0 [[(1 : Scalar)]] [[(1 : Scalar)]] [[0]]]).cudaBranchTaken = false) :=
  ⟨rfl,
    cuda_branch_unreachable [[(2 : Scalar)]] [[[(2 : Scalar)]]]
      ([[(1 : Scalar)]], [[(1 : Scalar)]]) [] []
      (verify_outputs device_opts (torch_mm [[(1 : Scalar)]] [[(1 : Scalar)]])
        [gemmSem 1 0 [[(1 : Scalar)]] [[(1 : Scalar)]] [[0]]]) rfl⟩

/-- C10: with inputs of shapes (3, 4) and (4, 5), the PyTorch output and the
Caffe2 output compared by the assertion both have shape (3, 5). -/
theorem compared_outputs_have_shape_3_5 (m1 m2 : Tensor)
    (_h1 : m1.wellFormed) (_h2 : m2.wellFormed)
    (hr1 : m1.rows = 3) (_hc1 : m1.cols = 4)
    (_hr2 : m2.rows = 4) (hc2 : m2.cols = 5) (pt c2 : List Scalar) :
    (run_notebook (m1, m2) pt c2).pytorch_results.rows = 3 ∧
    (run_notebook (m1, m2) pt c2).pytorch_results.cols = 5 ∧
    ∃ ws outs, (run_notebook (m1, m2) pt c2).caffe2_results = some (ws, outs) ∧
      outs.length = 1 ∧ (outs.headD []).rows = 3 ∧ (outs.headD []).cols = 5 := by
  have hne : m1 ≠ [] := by
    intro he
    rw [he] at hr1
    simp [Tensor.rows] at hr1
  have hres : (run_notebook (m1, m2) pt c2).pytorch_results = torch_mm m1 m2 := rfl
  have hg : gemmSem 1 0 m1 m2 [[0]] = torch_mm m1 m2 := gemmSem_one_zero m1 m2 [[0]] hne
  refine ⟨?_, ?_, ?_⟩
  · rw [hres, torch_mm_rows, hr1]
  · rw [hres, torch_mm_cols m1 m2 hne, hc2]
  · refine ⟨[("3", gemmSem 1 0 m1 m2 [[0]]), ("2", [[0]]), ("0", m1), ("1", m2)],
      [gemmSem 1 0 m1 m2 [[0]]], run_notebook_caffe2_results (m1, m2) pt c2, rfl, ?_, ?_⟩
    · show (gemmSem 1 0 m1 m2 [[0]]).rows = 3
      rw [hg, torch_mm_rows, hr1]
    · show (gemmSem 1 0 m1 m2 [[0]]).cols = 5
      rw [hg, torch_mm_cols m1 m2 hne, hc2]

/-- C10 witness: the theorem at concrete inputs of shapes (3, 4) and (4, 5). -/
theorem compared_outputs_have_shape_3_5_witness :
    Tensor.wellFormed [[(1 : Scalar), 0, 0, 0], [0, 1, 0, 0], [0, 0, 1, 0]] ∧
    Tensor.wellFormed [[(1 : Scalar), 0, 0, 0, 0], [0, 1, 0, 0, 0],
      [0, 0, 1, 0, 0], [0, 0, 0, 1, 0]] ∧
    Tensor.rows [[(1 : Scalar), 0, 0, 0], [0, 1, 0, 0], [0, 0, 1, 0]] = 3 ∧
    Tensor.cols [[(1 : Scalar), 0, 0, 0], [0, 1, 0, 0], [0, 0, 1, 0]] = 4 ∧
    Tensor.rows [[(1 : Scalar), 0, 0, 0, 0], [0, 1, 0, 0, 0],
      [0, 0, 1, 0, 0], [0, 0, 0, 1, 0]] = 4 ∧
    Tensor.cols [[(1 : Scalar), 0, 0, 0, 0], [0, 1, 0, 0, 0],
      [0, 0, 1, 0, 0], [0, 0, 0, 1, 0]] = 5 ∧
    ((run_notebook ([[(1 : Scalar), 0, 0, 0], [0, 1, 0, 0], [0, 0, 1, 0]],
        [[(1 : Scalar), 0, 0, 0, 0], [0, 1, 0, 0, 0], [0, 0, 1, 0, 0],
          [0, 0, 0, 1, 0]]) [] []).pytorch_results.rows = 3 ∧
      (run_notebook ([[(1 : Scalar), 0, 0, 0], [0, 1, 0, 0], [0, 0, 1, 0]],
        [[(1 : Scalar), 0, 0, 0, 0], [0, 1, 0, 0, 0], [0, 0, 1, 0, 0],
          [0, 0, 0, 1, 0]]) [] []).pytorch_results.cols = 5 ∧
      ∃ ws outs,
        (run_notebook ([[(1 : Scalar), 0, 0, 0], [0, 1, 0, 0], [0, 0, 1, 0]],
          [[(1 : Scalar), 0, 0, 0, 0], [0, 1, 0, 0, 0], [0, 0, 1, 0, 0],
            [0, 0, 0, 1, 0]]) [] []).caffe2_results = some (ws, outs) ∧
        outs.length = 1 ∧ (outs.headD []).rows = 3 ∧ (outs.headD []).cols = 5) :=
  ⟨by decide, by decide, by decide, by decide, by decide, by decide,
    compared_outputs_have_shape_3_5
      [[(1 : Scalar), 0, 0, 0], [0, 1, 0, 0], [0, 0, 1, 0]]
      [[(1 : Scalar), 0, 0, 0, 0], [0, 1, 0, 0, 0], [0, 0, 1, 0, 0],
        [0, 0, 0, 1, 0]]
      (by decide) (by decide) (by decide) (by decide) (by decide) (by decide)
      [] []⟩

end Tutorial
